import Mathlib

/-!
Verification of the MobileAgents backend observation engine.

Shallow embedding of the Python sources:
- `src/backend/app/models/pane.py`, `models/input.py` (data model)
- `src/backend/app/services/registry.py` (`PaneRegistry` mutators)
- `src/backend/app/services/control_mode/escaping.py` (octal escaping)
- `src/backend/app/services/control_mode/parser.py`, `client.py` (protocol)
- `src/backend/app/services/parser.py` (`InputParser`)
- `src/backend/app/services/observer.py` (discovery)

Python `datetime.now()` is modelled by an explicit `now : Nat` argument,
strings by Lean `String` (or `List Nat` of Unicode code points where
`ord`/`chr` arithmetic matters), and the registry dict by an association
list with unique keys.
-/

/-- `InputType` from `models/input.py`. -/
inductive InputType where
  | text
  | choice
  | confirm
deriving DecidableEq, Repr

/-- `InputRequest` from `models/input.py` (pydantic model; `None` fields are
`Option`). -/
structure InputRequest where
  input_type : InputType
  prompt : Option String := none
  message : Option String := none
  options : Option (List String) := none
deriving DecidableEq, Repr

/-- `PaneStatus` from `models/pane.py`. -/
inductive PaneStatus where
  | running
  | waiting_input
  | idle
  | exited
deriving DecidableEq, Repr

/-- `PaneState` from `models/pane.py`, with `datetime` modelled as `Nat`. -/
structure PaneState where
  pane_id : String
  session_name : String
  window_name : String
  window_index : Nat := 0
  pane_index : Nat := 0
  title : String := ""
  status : PaneStatus := .running
  last_output_hash : String := ""
  last_lines : List String := []
  input_request : Option InputRequest := none
  last_activity : Nat := 0
deriving DecidableEq, Repr

/-- The registry's `dict[str, PaneState]`, as an association list (insertion
order, unique keys). -/
abbrev Registry := List (String × PaneState)

/-- Dictionary lookup `self._panes.get(pane_id)`. -/
def lookupPane : Registry → String → Option PaneState
  | [], _ => none
  | (k, v) :: rest, pane_id => if k = pane_id then some v else lookupPane rest pane_id

/-- In-place mutation of the entry stored under `pane_id` (Python mutates the
`PaneState` object found in the dict). -/
def setPane (reg : Registry) (pane_id : String) (p : PaneState) : Registry :=
  reg.map (fun e => if e.1 = pane_id then (pane_id, p) else e)

/-- Key set of the registry (`self._panes.keys()`). -/
def regKeys (reg : Registry) : List String :=
  reg.map Prod.fst

namespace PaneRegistry

/-- `PaneRegistry.update`: `self._panes[pane_id] = state` (dict upsert:
replace in place if present, append otherwise). -/
def update (reg : Registry) (pane_id : String) (state : PaneState) : Registry :=
  if (lookupPane reg pane_id).isSome then setPane reg pane_id state
  else reg ++ [(pane_id, state)]

/-- `PaneRegistry.update_output` (registry.py lines 68-96). Returns
`(changed?, new registry)`. -/
def update_output (reg : Registry) (pane_id : String) (lines : List String)
    (output_hash : String) (now : Nat) : Bool × Registry :=
  match lookupPane reg pane_id with
  | none => (false, reg)
  | some pane =>
    if pane.last_output_hash = output_hash then (false, reg)
    else
      (true, setPane reg pane_id
        { pane with
          last_lines := lines
          last_output_hash := output_hash
          last_activity := now })

/-- `pane.last_lines[-1] += new_lines[0]`; then extend with `new_lines[1:]`
(or `pane.last_lines = new_lines` when the buffer is empty). -/
def appendLines : List String → List String → List String
  | [], new_lines => new_lines
  | olds, [] => olds
  | olds, n :: ns => olds.dropLast ++ (olds.getLastD "" ++ n) :: ns

/-- `PaneRegistry.append_output` (registry.py lines 98-145). -/
def append_output (reg : Registry) (pane_id : String) (new_data : String)
    (max_lines : Nat) (now : Nat) : Bool × Registry :=
  match lookupPane reg pane_id with
  | none => (false, reg)
  | some pane =>
    if new_data = "" then (true, reg)
    else
      let new_lines := new_data.splitOn "\n"
      let merged := appendLines pane.last_lines new_lines
      let trimmed :=
        if merged.length > max_lines then merged.drop (merged.length - max_lines)
        else merged
      (true, setPane reg pane_id
        { pane with
          last_lines := trimmed
          last_output_hash := ""
          last_activity := now })

/-- `PaneRegistry.update_status` (registry.py lines 163-185). -/
def update_status (reg : Registry) (pane_id : String) (status : PaneStatus)
    (now : Nat) : Bool × Registry :=
  match lookupPane reg pane_id with
  | none => (false, reg)
  | some pane =>
    if pane.status = status then (false, reg)
    else (true, setPane reg pane_id { pane with status := status, last_activity := now })

/-- `PaneRegistry.set_input_request` (registry.py lines 187-212): sets the
request; a non-`None` request also forces `status := waiting_input`. -/
def set_input_request (reg : Registry) (pane_id : String)
    (request : Option InputRequest) (now : Nat) : Bool × Registry :=
  match lookupPane reg pane_id with
  | none => (false, reg)
  | some pane =>
    let pane1 := { pane with input_request := request }
    let pane2 :=
      match request with
      | some _ => { pane1 with status := PaneStatus.waiting_input }
      | none => pane1
    (true, setPane reg pane_id { pane2 with last_activity := now })

/-- `PaneRegistry.clear_input_request` (registry.py lines 214-233). -/
def clear_input_request (reg : Registry) (pane_id : String) (now : Nat) :
    Bool × Registry :=
  match lookupPane reg pane_id with
  | none => (false, reg)
  | some pane =>
    (true, setPane reg pane_id
      { pane with
        input_request := none
        status := PaneStatus.running
        last_activity := now })

/-- `PaneRegistry.remove` (registry.py lines 235-250). -/
def remove (reg : Registry) (pane_id : String) : Bool × Registry :=
  if (lookupPane reg pane_id).isSome then
    (true, reg.filter (fun e => e.1 ≠ pane_id))
  else (false, reg)

end PaneRegistry

/-- `True` for a code in `0x30`-`0x37`, i.e. an ASCII octal digit. -/
def isOctalDigitCode (c : Nat) : Bool :=
  48 ≤ c && c ≤ 55

/-- One character of `escape_input` (escaping.py lines 44-64): control
characters (code < 32) and backslash (92) become `\ooo` (backslash plus
three octal digits, as ASCII codes); everything else is kept. -/
def escapeChar (c : Nat) : List Nat :=
  if c < 32 ∨ c = 92 then [92, 48 + c / 64, 48 + c / 8 % 8, 48 + c % 8]
  else [c]

/-- `escape_input` (escaping.py lines 44-64), on Unicode code points. -/
def escape_input (s : List Nat) : List Nat :=
  (s.map escapeChar).flatten

/-- `unescape_output` (escaping.py lines 18-41): the regex
`\\([0-7]\x7b3\x7d)` substitution, scanning left to right, replacing each
`\ooo` with the code point `ooo` (octal) and leaving everything else. -/
def unescape_output : List Nat → List Nat
  | [] => []
  | c :: d1 :: d2 :: d3 :: rest2 =>
    if c = 92 ∧ isOctalDigitCode d1 ∧ isOctalDigitCode d2 ∧ isOctalDigitCode d3 then
      ((d1 - 48) * 64 + (d2 - 48) * 8 + (d3 - 48)) :: unescape_output rest2
    else c :: unescape_output (d1 :: d2 :: d3 :: rest2)
  | c :: rest => c :: unescape_output rest

/-- `unescape_output` lifted to `String` (the bridge used by the control-mode
message decoder). -/
def strUnescape (s : String) : String :=
  String.mk ((unescape_output (s.data.map Char.toNat)).map Char.ofNat)

/-- A sample pane as registered by discovery (all defaulted fields). -/
def basePane : PaneState :=
  { pane_id := "%0", session_name := "s", window_name := "w" }

/-- A pane that is waiting for text input (request set, status matching). -/
def waitingPane : PaneState :=
  { basePane with
    status := PaneStatus.waiting_input
    input_request := some { input_type := InputType.text, prompt := some "Enter:" } }

/-- Spec invariant (i) for one pane: `input_request` is non-empty iff
`status = waiting_input`. -/
def paneInv (p : PaneState) : Prop :=
  p.input_request ≠ none ↔ p.status = PaneStatus.waiting_input

instance (p : PaneState) : Decidable (paneInv p) :=
  inferInstanceAs (Decidable ((p.input_request ≠ none) ↔ p.status = PaneStatus.waiting_input))

/-- Spec invariant (i) for the whole registry. -/
def regInv (reg : Registry) : Prop :=
  ∀ e ∈ reg, paneInv e.2

instance (reg : Registry) : Decidable (regInv reg) :=
  inferInstanceAs (Decidable (∀ e ∈ reg, paneInv e.2))

/-- Spec invariant (ii) for the registry: every pane's buffer is at most
`cap` lines. -/
def regCap (cap : Nat) (reg : Registry) : Prop :=
  ∀ e ∈ reg, e.2.last_lines.length ≤ cap

instance (cap : Nat) (reg : Registry) : Decidable (regCap cap reg) :=
  inferInstanceAs (Decidable (∀ e ∈ reg, e.2.last_lines.length ≤ cap))

/-- One output-mutating registry call, for sequences of
`update_output`/`append_output` (spec §8 property 1). -/
inductive OutOp where
  | upd (lines : List String) (hash : String) (now : Nat)
  | app (data : String) (now : Nat)

/-- Apply one output op to the registry (dropping the changed/appended flag). -/
def applyOutOp (cap : Nat) (pane_id : String) (reg : Registry) : OutOp → Registry
  | .upd lines h now => (PaneRegistry.update_output reg pane_id lines h now).2
  | .app data now => (PaneRegistry.append_output reg pane_id data cap now).2

/-- An op respects the cap when any `update_output` payload is within it. -/
def capOK (cap : Nat) : OutOp → Prop
  | .upd lines _ _ => lines.length ≤ cap
  | .app _ _ => True

instance (cap : Nat) (op : OutOp) : Decidable (capOK cap op) := by
  cases op with
  | upd lines h now => exact inferInstanceAs (Decidable (lines.length ≤ cap))
  | app data now => exact inferInstanceAs (Decidable True)

/-- Python `line.rstrip('\n\r')`. -/
def rstripNLCR (s : List Char) : List Char :=
  (s.reverse.dropWhile (fun c => c == '\n' || c == '\r')).reverse

/-- Strip an exact literal from the front (regex literal matching). -/
def stripLead : List Char → List Char → Option (List Char)
  | [], s => some s
  | _ :: _, [] => none
  | p :: ps, c :: cs => if p = c then stripLead ps cs else none

/-- `int(...)` on a digit group. -/
def digitsToNat (ds : List Char) : Nat :=
  ds.foldl (fun n c => n * 10 + (c.toNat - 48)) 0

/-- One `(\d+)` group: greedy non-empty digits, returning value and rest. -/
def matchNum (s : List Char) : Option (Nat × List Char) :=
  let ds := s.takeWhile Char.isDigit
  if ds.isEmpty then none
  else some (digitsToNat ds, s.dropWhile Char.isDigit)

/-- `(\d+) (\d+) (\d+)$` (the `%begin`/`%end` argument shape). -/
def matchThreeNums (s : List Char) : Option (Nat × Nat × Nat) :=
  match matchNum s with
  | some (a, ' ' :: s1) =>
    match matchNum s1 with
    | some (b, ' ' :: s2) =>
      match matchNum s2 with
      | some (c, []) => some (a, b, c)
      | _ => none
    | _ => none
  | _ => none

/-- `(\d+) (\d+) (.*)$` (the `%error` argument shape). -/
def matchTwoNumsRest (s : List Char) : Option (Nat × Nat × List Char) :=
  match matchNum s with
  | some (a, ' ' :: s1) =>
    match matchNum s1 with
    | some (b, ' ' :: s2) => some (a, b, s2)
    | _ => none
  | _ => none

/-- `(@\d+)$` / `(%\d+)$` / `($\d+)$`: tag plus digits, end of line. -/
def matchTagId (tag : Char) (s : List Char) : Option String :=
  match s with
  | c :: r =>
    if c = tag then
      let ds := r.takeWhile Char.isDigit
      if ds.isEmpty then none
      else if (r.dropWhile Char.isDigit).isEmpty then some (String.mk (c :: ds))
      else none
    else none
  | [] => none

/-- `(@\d+) (.*)$` and friends: tag id, one space, free-form rest. -/
def matchTagIdRest (tag : Char) (s : List Char) : Option (String × String) :=
  match s with
  | c :: r =>
    if c = tag then
      let ds := r.takeWhile Char.isDigit
      if ds.isEmpty then none
      else
        match r.dropWhile Char.isDigit with
        | ' ' :: rest => some (String.mk (c :: ds), String.mk rest)
        | _ => none
    else none
  | [] => none

/-- `ControlModeMessage` / `MessageType` from control_mode/parser.py, with
the per-type payload fields inlined into the constructors. -/
inductive CMMessage where
  | output (pane_id : String) (data : String)
  | begin (timestamp cmd_num flags : Nat)
  | endResp (timestamp cmd_num exit_code : Nat)
  | errorResp (timestamp cmd_num : Nat) (message : String)
  | windowAdd (window_id : String)
  | windowClose (window_id : String)
  | windowRenamed (window_id name : String)
  | sessionChanged (session_id name : String)
  | sessionsChanged
  | paneModeChanged (pane_id : String)
  | layoutChange (window_id layout : String)
  | unknown
deriving DecidableEq, Repr

/-- `^%output (%\d+) (.*)$` with the leading-colon trimming and unescape
applied to the data (control_mode/parser.py lines 104-118). -/
def tryOutput (l : List Char) : Option CMMessage :=
  match stripLead "%output ".data l with
  | none => none
  | some r =>
    match r with
    | c :: r1 =>
      if c = '%' then
        let ds := r1.takeWhile Char.isDigit
        if ds.isEmpty then none
        else
          match r1.dropWhile Char.isDigit with
          | ' ' :: rest =>
            let raw_data :=
              if (stripLead ": ".data rest).isSome then rest.drop 2
              else if (stripLead ":".data rest).isSome then rest.drop 1
              else rest
            some (CMMessage.output (String.mk ('%' :: ds)) (strUnescape (String.mk raw_data)))
          | _ => none
      else none
    | [] => none

/-- `^%begin (\d+) (\d+) (\d+)$`. -/
def tryBegin (l : List Char) : Option CMMessage :=
  match stripLead "%begin ".data l with
  | none => none
  | some r => (matchThreeNums r).map (fun t => CMMessage.begin t.1 t.2.1 t.2.2)

/-- `^%end (\d+) (\d+) (\d+)$`. -/
def tryEnd (l : List Char) : Option CMMessage :=
  match stripLead "%end ".data l with
  | none => none
  | some r => (matchThreeNums r).map (fun t => CMMessage.endResp t.1 t.2.1 t.2.2)

/-- `^%error (\d+) (\d+) (.*)$`. -/
def tryError (l : List Char) : Option CMMessage :=
  match stripLead "%error ".data l with
  | none => none
  | some r => (matchTwoNumsRest r).map (fun t => CMMessage.errorResp t.1 t.2.1 (String.mk t.2.2))

/-- `^%window-add (@\d+)$`. -/
def tryWindowAdd (l : List Char) : Option CMMessage :=
  (stripLead "%window-add ".data l).bind
    (fun r => (matchTagId '@' r).map CMMessage.windowAdd)

/-- `^%window-close (@\d+)$`. -/
def tryWindowClose (l : List Char) : Option CMMessage :=
  (stripLead "%window-close ".data l).bind
    (fun r => (matchTagId '@' r).map CMMessage.windowClose)

/-- `^%window-renamed (@\d+) (.*)$`. -/
def tryWindowRenamed (l : List Char) : Option CMMessage :=
  (stripLead "%window-renamed ".data l).bind
    (fun r => (matchTagIdRest '@' r).map (fun t => CMMessage.windowRenamed t.1 t.2))

/-- `^%session-changed (\$\d+) (.*)$`. -/
def trySessionChanged (l : List Char) : Option CMMessage :=
  (stripLead "%session-changed ".data l).bind
    (fun r => (matchTagIdRest '$' r).map (fun t => CMMessage.sessionChanged t.1 t.2))

/-- `^%sessions-changed$`. -/
def trySessionsChanged (l : List Char) : Option CMMessage :=
  if l = "%sessions-changed".data then some CMMessage.sessionsChanged else none

/-- `^%pane-mode-changed (%\d+)$`. -/
def tryPaneModeChanged (l : List Char) : Option CMMessage :=
  (stripLead "%pane-mode-changed ".data l).bind
    (fun r => (matchTagId '%' r).map CMMessage.paneModeChanged)

/-- `^%layout-change (@\d+) (.*)$`. -/
def tryLayoutChange (l : List Char) : Option CMMessage :=
  (stripLead "%layout-change ".data l).bind
    (fun r => (matchTagIdRest '@' r).map (fun t => CMMessage.layoutChange t.1 t.2))

/-- `ControlModeParser.parse_line` (control_mode/parser.py lines 91-202):
rstrip the line, try each pattern in source order, fall back to unknown. -/
def parse_line (line : String) : CMMessage :=
  let l := rstripNLCR line.data
  (tryOutput l <|> tryBegin l <|> tryEnd l <|> tryError l <|>
   tryWindowAdd l <|> tryWindowClose l <|> tryWindowRenamed l <|>
   trySessionChanged l <|> trySessionsChanged l <|> tryPaneModeChanged l <|>
   tryLayoutChange l).getD CMMessage.unknown

/-- `CommandResponse` from control_mode/client.py. -/
structure CommandResponse where
  success : Bool
  output : String
  error : Option String := none
  command_number : Nat := 0
deriving DecidableEq, Repr

/-- The session client's mutable correlation state: pending futures (by
command number), per-command response buffers, the command whose `%begin`
is currently open, and the responses resolved so far in resolution order. -/
structure ClientState where
  pending_commands : List Nat
  response_buffer : List (Nat × List String)
  current_cmd_num : Option Nat
  resolved : List CommandResponse
deriving DecidableEq, Repr

/-- `self._response_buffer.get(cmd_num)`. -/
def bufLookup : List (Nat × List String) → Nat → Option (List String)
  | [], _ => none
  | (k, v) :: rest, n => if k = n then some v else bufLookup rest n

/-- `self._response_buffer[cmd].append(raw)`. -/
def bufAppend (buf : List (Nat × List String)) (n : Nat) (line : String) :
    List (Nat × List String) :=
  buf.map (fun e => if e.1 = n then (n, e.2 ++ [line]) else e)

/-- `self._response_buffer.pop(cmd, None)`. -/
def bufErase (buf : List (Nat × List String)) (n : Nat) :
    List (Nat × List String) :=
  buf.filter (fun e => e.1 ≠ n)

/-- The registration part of `send_command` (client.py lines 152-158):
allocate the command number, create the future and an empty buffer. -/
def send_command_register (st : ClientState) (cmd_num : Nat) : ClientState :=
  { st with
    pending_commands := st.pending_commands ++ [cmd_num]
    response_buffer := st.response_buffer ++ [(cmd_num, [])] }

/-- `ControlModeClient._handle_message` (client.py lines 248-321), restricted
to its effect on the correlation state (callbacks do not touch it). -/
def handle_message (st : ClientState) (msg : CMMessage) (raw : String) : ClientState :=
  match msg with
  | .begin _ cmd _ =>
    if (bufLookup st.response_buffer cmd).isSome then st
    else { st with response_buffer := st.response_buffer ++ [(cmd, [])] }
  | .endResp _ cmd exit_code =>
    if st.pending_commands.contains cmd then
      { st with
        pending_commands := st.pending_commands.filter (fun n => n ≠ cmd)
        response_buffer := bufErase st.response_buffer cmd
        resolved := st.resolved ++
          [{ success := exit_code == 0
             output := String.intercalate "\n" ((bufLookup st.response_buffer cmd).getD [])
             command_number := cmd }] }
    else st
  | .errorResp _ cmd m =>
    if st.pending_commands.contains cmd then
      { st with
        pending_commands := st.pending_commands.filter (fun n => n ≠ cmd)
        response_buffer := bufErase st.response_buffer cmd
        resolved := st.resolved ++
          [{ success := false, output := "", error := some m, command_number := cmd }] }
    else st
  | .unknown =>
    match st.current_cmd_num with
    | some c =>
      if (bufLookup st.response_buffer c).isSome then
        { st with response_buffer := bufAppend st.response_buffer c raw }
      else st
    | none => st
  | _ => st

/-- One iteration of `ControlModeClient._read_loop` (client.py lines
217-234): parse, handle with the previous current command, then update the
current command from `%begin`/`%end`/`%error`. -/
def read_step (st : ClientState) (line : String) : ClientState :=
  let raw := String.mk (rstripNLCR line.data)
  let msg := parse_line line
  let st1 := handle_message st msg raw
  match msg with
  | .begin _ cmd _ => { st1 with current_cmd_num := some cmd }
  | .endResp _ _ _ => { st1 with current_cmd_num := none }
  | .errorResp _ _ _ => { st1 with current_cmd_num := none }
  | _ => st1

/-- The reader task consuming a finite line sequence. -/
def read_loop (st : ClientState) (lines : List String) : ClientState :=
  lines.foldl read_step st

/-- A fresh client. -/
def emptyClientState : ClientState :=
  { pending_commands := [], response_buffer := [], current_cmd_num := none
    resolved := [] }

/-- Client state with commands 1 and 2 pending (two `send_command`s in
flight). -/
def c5State : ClientState :=
  send_command_register (send_command_register emptyClientState 1) 2

/-- Python `\s` / `str.strip()` whitespace (ASCII range). -/
def isPySpace (c : Char) : Bool :=
  c == ' ' || c == '\t' || c == '\n' || c == '\r' || c == '\x0B' || c == '\x0C'

/-- `str.strip()`. -/
def pyStripChars (s : List Char) : List Char :=
  ((s.dropWhile isPySpace).reverse.dropWhile isPySpace).reverse

/-- `str.strip()` on `String`. -/
def pyStrip (s : String) : String :=
  String.mk (pyStripChars s.data)

/-- Case-insensitive literal match at the start (`re.IGNORECASE`). -/
def ciStrip : List Char → List Char → Option (List Char)
  | [], s => some s
  | _ :: _, [] => none
  | p :: ps, c :: cs => if p.toLower = c.toLower then ciStrip ps cs else none

/-- `TYPE_PATTERN.match`: `TYPE:\s*(text|choice|confirm)`, case-insensitive,
alternatives tried in order; the captured group lower-cases to the type. -/
def matchTYPE (line : String) : Option InputType :=
  match ciStrip "TYPE:".data line.data with
  | none => none
  | some r =>
    let r1 := r.dropWhile isPySpace
    if (ciStrip "text".data r1).isSome then some InputType.text
    else if (ciStrip "choice".data r1).isSome then some InputType.choice
    else if (ciStrip "confirm".data r1).isSome then some InputType.confirm
    else none

/-- `KEY:\s*(.+)` then `.strip()` on the group: fails on an empty rest;
on an all-whitespace rest the backtracked group strips to `""`, which
coincides with stripping the whitespace-dropped rest. -/
def matchKeyVal (kw : String) (line : String) : Option String :=
  match ciStrip kw.data line.data with
  | none => none
  | some r =>
    if r.isEmpty then none
    else some (pyStrip (String.mk (r.dropWhile isPySpace)))

/-- `PROMPT_PATTERN` (parser.py line 31). -/
def matchPROMPT (line : String) : Option String :=
  matchKeyVal "PROMPT:" line

/-- `MESSAGE_PATTERN` (parser.py line 32). -/
def matchMESSAGE (line : String) : Option String :=
  matchKeyVal "MESSAGE:" line

/-- `OPTIONS_PATTERN.match`: `OPTIONS:\s*$`, case-insensitive. -/
def matchOPTIONS (line : String) : Bool :=
  match ciStrip "OPTIONS:".data line.data with
  | none => false
  | some r => (r.dropWhile isPySpace).isEmpty

/-- `OPTION_LINE_PATTERN.match`: `^\s*\d+\)\s*(.+)$` with `.strip()` on the
group. -/
def matchOptionLine (line : String) : Option String :=
  let r1 := line.data.dropWhile isPySpace
  let ds := r1.takeWhile Char.isDigit
  if ds.isEmpty then none
  else
    match r1.dropWhile Char.isDigit with
    | ')' :: r2 =>
      if r2.isEmpty then none
      else some (pyStrip (String.mk (r2.dropWhile isPySpace)))
    | _ => none

/-- The four locals of `InputParser._parse_block`'s scan loop. -/
structure BlockScan where
  input_type : Option InputType := none
  prompt : Option String := none
  message : Option String := none
  options : Option (List String) := none
deriving DecidableEq, Repr

/-- The `while i < len(block)` loop of `_parse_block` (parser.py lines
120-163). The inner option-consuming loop is carried as the `inOpts` flag:
while it is set, lines matching the option pattern extend `options`; the
first non-matching line falls back to normal processing, exactly as the
source re-examines it in the outer loop. -/
def scanLines : List String → BlockScan → Bool → BlockScan
  | [], st, _ => st
  | l :: rest, st, inOpts =>
    match inOpts, matchOptionLine l with
    | true, some v =>
      scanLines rest { st with options := some (st.options.getD [] ++ [v]) } true
    | _, _ =>
      match matchTYPE l with
      | some t => scanLines rest { st with input_type := some t } false
      | none =>
        match matchPROMPT l with
        | some p => scanLines rest { st with prompt := some p } false
        | none =>
          match matchMESSAGE l with
          | some m => scanLines rest { st with message := some m } false
          | none =>
            if matchOPTIONS l then scanLines rest { st with options := some [] } true
            else scanLines rest st false

/-- Scan a whole block from the initial state. -/
def scanBlock (block : List String) : BlockScan :=
  scanLines block {} false

/-- Python truthiness of an optional string (`None` and `""` are falsy). -/
def strTruthy : Option String → Bool
  | some s => s != ""
  | none => false

/-- Python truthiness of an optional list (`None` and `[]` are falsy). -/
def optsTruthy : Option (List String) → Bool
  | some (_ :: _) => true
  | _ => false

/-- `InputParser._parse_block` (parser.py lines 101-183): scan, then infer
the type when no explicit `TYPE:` was seen, else build the request. -/
def parse_block (block : List String) : Option InputRequest :=
  if block.isEmpty then none
  else
    let st := scanBlock block
    let ty : Option InputType :=
      match st.input_type with
      | some t => some t
      | none =>
        if optsTruthy st.options then some InputType.choice
        else if strTruthy st.message then some InputType.confirm
        else if strTruthy st.prompt then some InputType.text
        else none
    match ty with
    | none => none
    | some t =>
      some { input_type := t, prompt := st.prompt, message := st.message,
             options := if optsTruthy st.options then st.options else none }

/-- `needle` is a leading segment of the second list. -/
def leadsWith : List Char → List Char → Bool
  | [], _ => true
  | _ :: _, [] => false
  | n :: ns, h :: hs => n == h && leadsWith ns hs

/-- Python substring test `needle in hay`. -/
def containsSub (needle : List Char) : List Char → Bool
  | [] => needle.isEmpty
  | c :: t => leadsWith needle (c :: t) || containsSub needle t

/-- `self.INPUT_MARKER in line`. -/
def hasMarker (s : String) : Bool :=
  containsSub "[INPUT_REQUIRED]".data s.data

/-- The body of `InputParser._extract_block`'s loop (parser.py lines
80-99): strip each line, skip marker lines, stop at the first blank line
after content. -/
def extractLoop : List String → Bool → List String
  | [], _ => []
  | l :: rest, found =>
    if hasMarker (pyStrip l) then extractLoop rest found
    else if pyStrip l == "" then (if found then [] else extractLoop rest found)
    else pyStrip l :: extractLoop rest true

/-- `InputParser._extract_block` (parser.py lines 63-99): at most 20 lines
starting at the marker. -/
def extract_block (lines : List String) (marker_index : Nat) : List String :=
  extractLoop ((lines.drop marker_index).take 20) false

/-- The marker search of `InputParser.parse` (parser.py lines 47-51): the
last index whose line contains the marker. -/
def findLastMarker : List String → Option Nat
  | [] => none
  | l :: rest =>
    match findLastMarker rest with
    | some i => some (i + 1)
    | none => if hasMarker l then some 0 else none

/-- `InputParser.parse` (parser.py lines 36-61). -/
def parse (lines : List String) : Option InputRequest :=
  match findLastMarker lines with
  | none => none
  | some i =>
    if (extract_block lines i).isEmpty then none
    else parse_block (extract_block lines i)

/-- `TmuxPane` from tmux.py lines 12-20. -/
structure TmuxPane where
  pane_id : String
  session_name : String
  window_name : String
  window_index : Nat
  pane_index : Nat
  pane_title : String
  pane_active : Bool
deriving DecidableEq, Repr

/-- A sample discovered tmux pane. -/
def tmuxPane2 : TmuxPane :=
  { pane_id := "%2", session_name := "s", window_name := "w",
    window_index := 0, pane_index := 0, pane_title := "t",
    pane_active := true }

/-- The discovery/removal events emitted by the observer (events.py). -/
inductive ObsEvent where
  | paneDiscovered (pane : PaneState)
  | paneRemoved (pane_id : String)
deriving DecidableEq, Repr

/-- `ObserverDaemon._add_pane` (observer.py lines 434-461): build the
initial state, upsert it, in control mode also store an initial capture
(via `update_output` with hash `""`), and emit one discovery event. -/
def add_pane (controlMode : Bool) (capture : String → List String) (now : Nat)
    (reg : Registry) (tp : TmuxPane) : Registry × List ObsEvent :=
  let state : PaneState :=
    { pane_id := tp.pane_id, session_name := tp.session_name
      window_name := tp.window_name, window_index := tp.window_index
      pane_index := tp.pane_index, title := tp.pane_title
      status := PaneStatus.running, last_activity := now }
  let reg1 := PaneRegistry.update reg tp.pane_id state
  let reg2 :=
    if controlMode then
      (PaneRegistry.update_output reg1 tp.pane_id (capture tp.pane_id) "" now).2
    else reg1
  (reg2, [ObsEvent.paneDiscovered state])

/-- `ObserverDaemon._remove_pane` (observer.py lines 463-471). -/
def remove_pane (reg : Registry) (pane_id : String) : Registry × List ObsEvent :=
  ((PaneRegistry.remove reg pane_id).2, [ObsEvent.paneRemoved pane_id])

/-- The addition loop of `_discover_panes` (observer.py lines 424-427).
`new_ids = discovered_ids - current_ids` is computed before the loop, so a
pane is added exactly when its id is not among the original keys
(membership in `discovered_ids` is automatic for a listed pane). -/
def addLoop (cm : Bool) (capture : String → List String) (now : Nat)
    (current_ids : List String) :
    Registry → List TmuxPane → Registry × List ObsEvent
  | reg, [] => (reg, [])
  | reg, tp :: rest =>
    if tp.pane_id ∈ current_ids then addLoop cm capture now current_ids reg rest
    else
      let r1 := add_pane cm capture now reg tp
      let r2 := addLoop cm capture now current_ids r1.1 rest
      (r2.1, r1.2 ++ r2.2)

/-- The removal loop of `_discover_panes` (observer.py lines 430-432). -/
def removeLoop : Registry → List String → Registry × List ObsEvent
  | reg, [] => (reg, [])
  | reg, pane_id :: rest =>
    let r1 := remove_pane reg pane_id
    let r2 := removeLoop r1.1 rest
    (r2.1, r1.2 ++ r2.2)

/-- `ObserverDaemon._discover_panes` (observer.py lines 411-432): diff the
discovered panes against the registry keys, add the new ones, remove the
vanished ones, emitting one event each. -/
def discover_panes (cm : Bool) (capture : String → List String) (now : Nat)
    (reg : Registry) (tmux_panes : List TmuxPane) : Registry × List ObsEvent :=
  let current_ids := regKeys reg
  let discovered_ids := tmux_panes.map (fun p => p.pane_id)
  let r1 := addLoop cm capture now current_ids reg tmux_panes
  let removed_ids := current_ids.filter (fun pane_id => decide (pane_id ∉ discovered_ids))
  let r2 := removeLoop r1.1 removed_ids
  (r2.1, r1.2 ++ r2.2)

/-- Number of `pane_discovered` events for a given id. -/
def countDisc (evs : List ObsEvent) (pane_id : String) : Nat :=
  (evs.filter (fun e =>
    match e with
    | ObsEvent.paneDiscovered st => st.pane_id == pane_id
    | _ => false)).length

/-- Number of `pane_removed` events for a given id. -/
def countRem (evs : List ObsEvent) (pane_id : String) : Nat :=
  (evs.filter (fun e =>
    match e with
    | ObsEvent.paneRemoved pid => pid == pane_id
    | _ => false)).length

/-- Scanning past a non-backslash character leaves it unchanged. -/
theorem unescape_cons_ne (c : Nat) (h : c ≠ 92) (t : List Nat) :
    unescape_output (c :: t) = c :: unescape_output t := by
  match t with
  | [] => simp [unescape_output]
  | [a] => simp [unescape_output]
  | [a, b] => simp [unescape_output]
  | a :: b :: d :: t2 => simp [unescape_output, h]

/-- Claim C4: for every string (sequence of code points),
`unescape_output (escape_input s) = s`: octal-escaping control characters
and backslash and then decoding every `\ooo` escape is the identity. -/
theorem unescape_escape_roundtrip (s : List Nat) :
    unescape_output (escape_input s) = s := by
  induction s with
  | nil => rfl
  | cons c rest ih =>
    have hesc : escape_input (c :: rest) = escapeChar c ++ escape_input rest := by
      simp [escape_input]
    rw [hesc]
    by_cases h : c < 32 ∨ c = 92
    · have hd1 : isOctalDigitCode (48 + c / 64) = true := by
        simp [isOctalDigitCode]; omega
      have hd2 : isOctalDigitCode (48 + c / 8 % 8) = true := by
        simp [isOctalDigitCode]; omega
      have hd3 : isOctalDigitCode (48 + c % 8) = true := by
        simp [isOctalDigitCode]; omega
      have hval : (48 + c / 64 - 48) * 64 + (48 + c / 8 % 8 - 48) * 8 + (48 + c % 8 - 48) = c := by
        omega
      have hchar : escapeChar c = [92, 48 + c / 64, 48 + c / 8 % 8, 48 + c % 8] := by
        unfold escapeChar
        exact if_pos h
      rw [hchar]
      simp [unescape_output, hd1, hd2, hd3, hval, ih]
      omega
    · have h2 : c ≠ 92 := by omega
      have hchar : escapeChar c = [c] := by
        unfold escapeChar
        exact if_neg h
      rw [hchar, List.cons_append, List.nil_append, unescape_cons_ne c h2, ih]

/-- Claim C6: `escape_input` escapes a literal newline (code 10) to the
octal escape `\012` — here `"a\nb"` (codes `[97, 10, 98]`) becomes
`"a\012b"` (codes `[97, 92, 48, 49, 50, 98]`), contradicting the comment
in the source ("except newline which tmux handles") and the spec's claim
that a literal newline in outbound data is not escaped. -/
theorem escape_input_newline_bug :
    escape_input [97, 10, 98] = [97, 92, 48, 49, 50, 98] := by
  decide

/-- Claim C1: on a registered pane whose stored `last_output_hash` is the
empty string (the default, and the state left by `append_output`), a call
`update_output(id, lines, "")` returns `false` and stores nothing, although
the spec says the empty hash always counts as "changed". -/
theorem update_output_empty_hash_bug :
    PaneRegistry.update_output [("%0", basePane)] "%0" ["x"] "" 5 =
      (false, [("%0", basePane)]) := by
  decide

/-- Membership in an updated registry entry. -/
theorem mem_setPane {reg : Registry} {pane_id : String} {p : PaneState}
    {e : String × PaneState} (he : e ∈ setPane reg pane_id p) :
    e.2 = p ∨ e ∈ reg := by
  unfold setPane at he
  rcases List.mem_map.1 he with ⟨a, ha, hae⟩
  by_cases hc : a.1 = pane_id
  · simp [hc] at hae
    exact Or.inl (by rw [← hae])
  · simp [hc] at hae
    exact Or.inr (hae ▸ ha)

/-- A successful lookup returns a pane of the registry. -/
theorem lookupPane_mem {reg : Registry} {pane_id : String} {p : PaneState}
    (h : lookupPane reg pane_id = some p) : ∃ e ∈ reg, e.2 = p := by
  induction reg with
  | nil => simp [lookupPane] at h
  | cons a rest ih =>
    by_cases hc : a.1 = pane_id
    · refine ⟨a, List.mem_cons_self a rest, ?_⟩
      have : some a.2 = some p := by
        rw [← h]
        simp [lookupPane, hc]
      exact Option.some.inj this
    · have h' : lookupPane rest pane_id = some p := by
        rw [← h]
        simp [lookupPane, hc]
      rcases ih h' with ⟨e, he, hep⟩
      exact ⟨e, List.mem_cons_of_mem a he, hep⟩

/-- Unfolding `setPane` over a cons cell. -/
theorem setPane_cons (k : String) (v : PaneState) (rest : Registry)
    (pane_id : String) (p : PaneState) :
    setPane ((k, v) :: rest) pane_id p =
      (if k = pane_id then (pane_id, p) else (k, v)) :: setPane rest pane_id p := rfl

theorem lookupPane_setPane_self {reg : Registry} {pane_id : String}
    (h : (lookupPane reg pane_id).isSome) (q : PaneState) :
    lookupPane (setPane reg pane_id q) pane_id = some q := by
  induction reg with
  | nil => simp [lookupPane] at h
  | cons a rest ih =>
    obtain ⟨k, v⟩ := a
    by_cases hc : k = pane_id
    · subst hc
      rw [setPane_cons, if_pos rfl]
      simp [lookupPane]
    · have h' : (lookupPane rest pane_id).isSome := by
        simpa [lookupPane, hc] using h
      rw [setPane_cons, if_neg hc]
      simp only [lookupPane, if_neg hc]
      exact ih h'

/-- `setPane` preserves the input-request invariant when the new pane
satisfies it. -/
theorem regInv_setPane {reg : Registry} (h : regInv reg) {p : PaneState}
    (hp : paneInv p) (pane_id : String) : regInv (setPane reg pane_id p) := by
  intro e he
  rcases mem_setPane he with h2 | h2
  · rw [h2]; exact hp
  · exact h e h2

/-- Filtering preserves the input-request invariant. -/
theorem regInv_filter {reg : Registry} (h : regInv reg)
    (pred : String × PaneState → Bool) : regInv (reg.filter pred) := by
  intro e he
  exact h e (List.mem_filter.1 he).1

/-- Claim C2 (amended): the invariant "`input_request` non-empty iff
`status = waiting_input`" is preserved by `update` (for a state satisfying
it), `update_output`, `append_output`, `set_input_request` with a non-`None`
request, `clear_input_request`, and `remove`; `set_input_request(id, None)`
(which leaves `status` untouched) and `update_status` (which never touches
`input_request`) can violate it. -/
theorem input_request_invariant_amended (reg : Registry) (h : regInv reg)
    (pane_id : String) (state : PaneState) (hstate : paneInv state)
    (lines : List String) (hsh : String) (data : String) (cap now : Nat)
    (req : InputRequest) :
    regInv (PaneRegistry.update reg pane_id state) ∧
    regInv (PaneRegistry.update_output reg pane_id lines hsh now).2 ∧
    regInv (PaneRegistry.append_output reg pane_id data cap now).2 ∧
    regInv (PaneRegistry.set_input_request reg pane_id (some req) now).2 ∧
    regInv (PaneRegistry.clear_input_request reg pane_id now).2 ∧
    regInv (PaneRegistry.remove reg pane_id).2 := by
  refine ⟨?_, ?_, ?_, ?_, ?_, ?_⟩
  · unfold PaneRegistry.update
    by_cases hl : (lookupPane reg pane_id).isSome
    · rw [if_pos hl]
      exact regInv_setPane h hstate pane_id
    · rw [if_neg hl]
      intro e he
      rcases List.mem_append.1 he with h2 | h2
      · exact h e h2
      · rw [List.mem_singleton.1 h2]
        exact hstate
  · cases hl : lookupPane reg pane_id with
    | none => simpa [PaneRegistry.update_output, hl] using h
    | some pane =>
      rcases lookupPane_mem hl with ⟨e, he, hep⟩
      have hpane : paneInv pane := hep ▸ h e he
      by_cases hh : pane.last_output_hash = hsh
      · simpa [PaneRegistry.update_output, hl, hh] using h
      · simp only [PaneRegistry.update_output, hl, if_neg hh]
        exact regInv_setPane h (by unfold paneInv at hpane ⊢; exact hpane) pane_id
  · cases hl : lookupPane reg pane_id with
    | none => simpa [PaneRegistry.append_output, hl] using h
    | some pane =>
      rcases lookupPane_mem hl with ⟨e, he, hep⟩
      have hpane : paneInv pane := hep ▸ h e he
      by_cases hd : data = ""
      · simpa [PaneRegistry.append_output, hl, hd] using h
      · simp only [PaneRegistry.append_output, hl, if_neg hd]
        exact regInv_setPane h (by unfold paneInv at hpane ⊢; exact hpane) pane_id
  · cases hl : lookupPane reg pane_id with
    | none => simpa [PaneRegistry.set_input_request, hl] using h
    | some pane =>
      simp only [PaneRegistry.set_input_request, hl]
      exact regInv_setPane h (by unfold paneInv; simp) pane_id
  · cases hl : lookupPane reg pane_id with
    | none => simpa [PaneRegistry.clear_input_request, hl] using h
    | some pane =>
      simp only [PaneRegistry.clear_input_request, hl]
      exact regInv_setPane h (by unfold paneInv; simp) pane_id
  · by_cases hl : (lookupPane reg pane_id).isSome
    · simp only [PaneRegistry.remove, if_pos hl]
      exact regInv_filter h _
    · simpa [PaneRegistry.remove, hl] using h

/-- Claim C2 witness: the amended preservation theorem at a concrete
registry. -/
theorem input_request_invariant_amended_witness :
    regInv (PaneRegistry.clear_input_request [("%0", waitingPane)] "%0" 9).2 :=
  (input_request_invariant_amended [("%0", waitingPane)] (by decide) "%0"
    basePane (by decide) [] "" "" 500 9
    { input_type := InputType.text }).2.2.2.2.1

/-- Claim C2 counterexample: both registries satisfy the invariant, yet
`set_input_request(id, None)` on a `waiting_input` pane and
`update_status(id, waiting_input)` on a request-free pane leave it
violated. -/
theorem input_request_invariant_counterexample :
    regInv [("%0", waitingPane)] ∧
    ¬ regInv (PaneRegistry.set_input_request [("%0", waitingPane)] "%0" none 7).2 ∧
    regInv [("%0", basePane)] ∧
    ¬ regInv (PaneRegistry.update_status [("%0", basePane)] "%0"
        PaneStatus.waiting_input 7).2 := by
  decide

/-- Trimming to the last `cap` lines caps the length (registry.py 137-139). -/
theorem trimLength (cap : Nat) (l : List String) :
    (if l.length > cap then l.drop (l.length - cap) else l).length ≤ cap := by
  split
  · simp [List.length_drop]
    omega
  · omega

/-- `setPane` preserves the line-cap invariant when the new pane is within
the cap. -/
theorem regCap_setPane {cap : Nat} {reg : Registry} (h : regCap cap reg)
    {p : PaneState} (hp : p.last_lines.length ≤ cap) (pane_id : String) :
    regCap cap (setPane reg pane_id p) := by
  intro e he
  rcases mem_setPane he with h2 | h2
  · rw [h2]; exact hp
  · exact h e h2

/-- `append_output` always leaves every buffer within the cap it is called
with: the incremental path trims to the last `cap` lines. -/
theorem regCap_append_output (cap : Nat) (pane_id : String) (data : String)
    (now : Nat) {reg : Registry} (h : regCap cap reg) :
    regCap cap (PaneRegistry.append_output reg pane_id data cap now).2 := by
  cases hl : lookupPane reg pane_id with
  | none => simpa [PaneRegistry.append_output, hl] using h
  | some pane =>
    by_cases hd : data = ""
    · simpa [PaneRegistry.append_output, hl, hd] using h
    · simp only [PaneRegistry.append_output, hl, if_neg hd]
      exact regCap_setPane h (trimLength cap _) pane_id

/-- `update_output` preserves the cap only when its payload respects it. -/
theorem regCap_update_output (cap : Nat) (pane_id : String)
    {lines : List String} (hsh : String) (now : Nat) {reg : Registry}
    (h : regCap cap reg) (hlines : lines.length ≤ cap) :
    regCap cap (PaneRegistry.update_output reg pane_id lines hsh now).2 := by
  cases hl : lookupPane reg pane_id with
  | none => simpa [PaneRegistry.update_output, hl] using h
  | some pane =>
    by_cases hh : pane.last_output_hash = hsh
    · simpa [PaneRegistry.update_output, hl, hh] using h
    · simp only [PaneRegistry.update_output, hl, if_neg hh]
      exact regCap_setPane h hlines pane_id

/-- Claim C3 (amended): for every sequence of `append_output` and
`update_output` calls in which each `update_output` payload is itself
within the cap, the invariant `|last_lines| ≤ cap` is preserved.
`update_output` does not trim, so the blanket claim fails: a payload
longer than the cap is stored in full (see the counterexample). -/
theorem line_cap_amended (cap : Nat) (pane_id : String) (ops : List OutOp)
    (reg : Registry) (h : regCap cap reg)
    (hops : ∀ op ∈ ops, capOK cap op) :
    regCap cap (ops.foldl (applyOutOp cap pane_id) reg) := by
  induction ops generalizing reg with
  | nil => simpa using h
  | cons op rest ih =>
    rw [List.foldl_cons]
    apply ih
    · cases op with
      | upd lines hsh now =>
        exact regCap_update_output cap pane_id hsh now h
          (hops _ (List.mem_cons_self _ _))
      | app data now =>
        exact regCap_append_output cap pane_id data now h
    · intro op' hop'
      exact hops op' (List.mem_cons_of_mem _ hop')

/-- Claim C3 witness: the amended cap-preservation theorem at a concrete
op sequence. -/
theorem line_cap_amended_witness :
    regCap 500 ([OutOp.app "a\nb" 1, OutOp.upd ["x"] "h" 2].foldl
      (applyOutOp 500 "%0") [("%0", basePane)]) :=
  line_cap_amended 500 "%0" [OutOp.app "a\nb" 1, OutOp.upd ["x"] "h" 2]
    [("%0", basePane)] (by decide) (by decide)

/-- Claim C3 counterexample: `update_output` with a 501-line payload on a
pane within the default cap of 500 reports a change and stores all 501
lines — the registry does not enforce the cap on that path. -/
theorem update_output_exceeds_cap_counterexample :
    (PaneRegistry.update_output [("%0", basePane)] "%0"
        (List.replicate 501 "x") "h" 1).1 = true ∧
    (lookupPane (PaneRegistry.update_output [("%0", basePane)] "%0"
        (List.replicate 501 "x") "h" 1).2 "%0").map
      (fun p => p.last_lines.length) = some 501 := by
  constructor
  · rfl
  · have hs : (lookupPane [("%0", basePane)] "%0").isSome := rfl
    rw [show (PaneRegistry.update_output [("%0", basePane)] "%0"
        (List.replicate 501 "x") "h" 1).2 =
      setPane [("%0", basePane)] "%0"
        { basePane with
          last_lines := List.replicate 501 "x"
          last_output_hash := "h"
          last_activity := 1 } from rfl]
    rw [lookupPane_setPane_self hs]
    show some (List.replicate 501 "x").length = some 501
    rw [List.length_replicate]

/-- Claim C9 counterexample: `append_output(id, "")` on a tracked pane
returns `true` yet leaves the registry (and in particular the pane's
`last_activity`, still 0) completely untouched — not every mutation
bumps `last_activity`. -/
theorem append_empty_activity_counterexample :
    PaneRegistry.append_output [("%0", basePane)] "%0" "" 500 5 =
      (true, [("%0", basePane)]) ∧
    basePane.last_activity = 0 := by
  decide

/-- Claim C9 (amended): the mutators that actually modify a tracked pane
stamp it with the mutation time: `update_output` when it reports a change,
`append_output` on non-empty data, `update_status` when it reports a
change, and `set_input_request`/`clear_input_request` always; but
`append_output` with empty data (which still returns `true`) does not
touch `last_activity`, and `update` stores the caller's state verbatim. -/
theorem last_activity_amended (reg : Registry) (pane_id : String)
    (h : (lookupPane reg pane_id).isSome)
    (lines : List String) (hsh data : String) (cap now : Nat)
    (st : PaneStatus) (req : Option InputRequest) :
    ((PaneRegistry.update_output reg pane_id lines hsh now).1 = true →
      (lookupPane (PaneRegistry.update_output reg pane_id lines hsh now).2 pane_id).map
        (fun p => p.last_activity) = some now) ∧
    (data ≠ "" →
      (lookupPane (PaneRegistry.append_output reg pane_id data cap now).2 pane_id).map
        (fun p => p.last_activity) = some now) ∧
    ((PaneRegistry.update_status reg pane_id st now).1 = true →
      (lookupPane (PaneRegistry.update_status reg pane_id st now).2 pane_id).map
        (fun p => p.last_activity) = some now) ∧
    ((lookupPane (PaneRegistry.set_input_request reg pane_id req now).2 pane_id).map
      (fun p => p.last_activity) = some now) ∧
    ((lookupPane (PaneRegistry.clear_input_request reg pane_id now).2 pane_id).map
      (fun p => p.last_activity) = some now) := by
  cases hl : lookupPane reg pane_id with
  | none => rw [hl] at h; simp at h
  | some pane =>
    have hs : (lookupPane reg pane_id).isSome := by rw [hl]; rfl
    refine ⟨?_, ?_, ?_, ?_, ?_⟩
    · by_cases hh : pane.last_output_hash = hsh
      · intro htrue
        exfalso
        simp [PaneRegistry.update_output, hl, hh] at htrue
      · intro _
        simp only [PaneRegistry.update_output, hl, if_neg hh]
        rw [lookupPane_setPane_self hs]
        rfl
    · intro hd
      simp only [PaneRegistry.append_output, hl, if_neg hd]
      rw [lookupPane_setPane_self hs]
      rfl
    · by_cases hst : pane.status = st
      · intro htrue
        exfalso
        simp [PaneRegistry.update_status, hl, hst] at htrue
      · intro _
        simp only [PaneRegistry.update_status, hl, if_neg hst]
        rw [lookupPane_setPane_self hs]
        rfl
    · cases req with
      | none =>
        simp only [PaneRegistry.set_input_request, hl]
        rw [lookupPane_setPane_self hs]
        rfl
      | some r =>
        simp only [PaneRegistry.set_input_request, hl]
        rw [lookupPane_setPane_self hs]
        rfl
    · simp only [PaneRegistry.clear_input_request, hl]
      rw [lookupPane_setPane_self hs]
      rfl

/-- Claim C9 witness: the amended activity-stamping theorem at a concrete
registry (`clear_input_request` stamps the pane with the call time). -/
theorem last_activity_amended_witness :
    (lookupPane (PaneRegistry.clear_input_request [("%0", waitingPane)] "%0" 11).2 "%0").map
      (fun p => p.last_activity) = some 11 :=
  (last_activity_amended [("%0", waitingPane)] "%0" (by decide)
    [] "" "" 500 11 PaneStatus.running none).2.2.2.2

/-- Claim C10: every mutator called with an unregistered pane id returns
`false` and leaves the registry mapping entirely unchanged. -/
theorem unknown_pane_mutators_noop (reg : Registry) (pane_id : String)
    (h : lookupPane reg pane_id = none) (lines : List String)
    (hsh data : String) (cap now : Nat) (st : PaneStatus)
    (req : Option InputRequest) :
    PaneRegistry.update_output reg pane_id lines hsh now = (false, reg) ∧
    PaneRegistry.append_output reg pane_id data cap now = (false, reg) ∧
    PaneRegistry.update_status reg pane_id st now = (false, reg) ∧
    PaneRegistry.set_input_request reg pane_id req now = (false, reg) ∧
    PaneRegistry.clear_input_request reg pane_id now = (false, reg) ∧
    PaneRegistry.remove reg pane_id = (false, reg) := by
  refine ⟨?_, ?_, ?_, ?_, ?_, ?_⟩ <;>
    simp [PaneRegistry.update_output, PaneRegistry.append_output,
      PaneRegistry.update_status, PaneRegistry.set_input_request,
      PaneRegistry.clear_input_request, PaneRegistry.remove, h]

/-- Claim C10 witness: the no-op theorem at a concrete registry and an
unknown id. -/
theorem unknown_pane_mutators_noop_witness :
    PaneRegistry.remove [("%0", basePane)] "%9" = (false, [("%0", basePane)]) :=
  (unknown_pane_mutators_noop [("%0", basePane)] "%9" (by decide)
    [] "" "" 500 0 PaneStatus.running none).2.2.2.2.2


/-- Claim C5: with commands 1 and 2 pending, consuming
`%begin 0 1 0, X, %begin 0 2 0, Y, %end 0 2 0, %end 0 1 0` resolves
command 2 first with output `"Y"` and then command 1 with output `"X"`,
both successful: correlation is strictly by command number, out-of-order
completion is permitted, and unknown lines are buffered into the payload
of the command whose `%begin` is currently open. -/
theorem read_loop_out_of_order_correlation :
    read_loop c5State
      ["%begin 0 1 0", "X", "%begin 0 2 0", "Y", "%end 0 2 0", "%end 0 1 0"] =
    { pending_commands := [], response_buffer := [], current_cmd_num := none
      resolved := [{ success := true, output := "Y", command_number := 2 },
                   { success := true, output := "X", command_number := 1 }] } := by
  decide

/-- If no line of the block matches the `TYPE:` pattern, the scan never
sets `input_type`. -/
theorem scanLines_input_type (block : List String) :
    ∀ (st : BlockScan) (inOpts : Bool), (∀ l ∈ block, matchTYPE l = none) →
    (scanLines block st inOpts).input_type = st.input_type := by
  induction block with
  | nil =>
    intro st inOpts _
    rfl
  | cons l rest ih =>
    intro st inOpts h
    have hl : matchTYPE l = none := h l (List.mem_cons_self _ _)
    have hrest : ∀ x ∈ rest, matchTYPE x = none :=
      fun x hx => h x (List.mem_cons_of_mem _ hx)
    cases inOpts with
    | true =>
      cases hopt : matchOptionLine l with
      | some v =>
        simp only [scanLines, hopt]
        exact ih _ true hrest
      | none =>
        simp only [scanLines, hopt, hl]
        cases hp : matchPROMPT l with
        | some p => exact ih _ false hrest
        | none =>
          cases hm : matchMESSAGE l with
          | some m => exact ih _ false hrest
          | none =>
            by_cases ho : matchOPTIONS l = true
            · simp only [ho, if_true]
              exact ih _ true hrest
            · simp only [ho, if_false, Bool.false_eq_true]
              exact ih _ false hrest
    | false =>
      cases hopt : matchOptionLine l with
      | some v =>
        simp only [scanLines, hopt, hl]
        cases hp : matchPROMPT l with
        | some p => exact ih _ false hrest
        | none =>
          cases hm : matchMESSAGE l with
          | some m => exact ih _ false hrest
          | none =>
            by_cases ho : matchOPTIONS l = true
            · simp only [ho, if_true]
              exact ih _ true hrest
            · simp only [ho, if_false, Bool.false_eq_true]
              exact ih _ false hrest
      | none =>
        simp only [scanLines, hopt, hl]
        cases hp : matchPROMPT l with
        | some p => exact ih _ false hrest
        | none =>
          cases hm : matchMESSAGE l with
          | some m => exact ih _ false hrest
          | none =>
            by_cases ho : matchOPTIONS l = true
            · simp only [ho, if_true]
              exact ih _ true hrest
            · simp only [ho, if_false, Bool.false_eq_true]
              exact ih _ false hrest

/-- Claim C7: on a block with no explicit `TYPE:` line, `_parse_block`
infers choice when at least one option was parsed, else confirm when a
(truthy) message was parsed, else text when a (truthy) prompt was parsed,
else returns no request; and in particular
`parse(["[INPUT_REQUIRED]", "OPTIONS:", "1) Yes", "2) No"])` yields a
choice request with options `["Yes", "No"]`. -/
theorem parse_block_inference (block : List String)
    (h : ∀ l ∈ block, matchTYPE l = none) :
    parse_block block =
      (if block.isEmpty then none
       else if optsTruthy (scanBlock block).options then
         some { input_type := InputType.choice, prompt := (scanBlock block).prompt,
                message := (scanBlock block).message, options := (scanBlock block).options }
       else if strTruthy (scanBlock block).message then
         some { input_type := InputType.confirm, prompt := (scanBlock block).prompt,
                message := (scanBlock block).message, options := none }
       else if strTruthy (scanBlock block).prompt then
         some { input_type := InputType.text, prompt := (scanBlock block).prompt,
                message := (scanBlock block).message, options := none }
       else none) ∧
    parse ["[INPUT_REQUIRED]", "OPTIONS:", "1) Yes", "2) No"] =
      some { input_type := InputType.choice, prompt := none, message := none,
             options := some ["Yes", "No"] } := by
  constructor
  · have hscan : (scanBlock block).input_type = none :=
      scanLines_input_type block {} false h
    unfold parse_block
    by_cases hb : block.isEmpty = true
    · simp [hb]
    · simp only [hb, Bool.false_eq_true, if_false]
      rw [hscan]
      by_cases ho : optsTruthy (scanBlock block).options = true
      · simp [ho]
      · by_cases hm : strTruthy (scanBlock block).message = true
        · simp [ho, hm]
        · by_cases hp : strTruthy (scanBlock block).prompt = true
          · simp [ho, hm, hp]
          · simp [ho, hm, hp]
  · decide

/-- Claim C7 witness: the inference theorem applied to the extracted block
of the S2 scenario. -/
theorem parse_block_inference_witness :
    parse_block ["OPTIONS:", "1) Yes", "2) No"] =
      some { input_type := InputType.choice, prompt := none, message := none,
             options := some ["Yes", "No"] } := by
  have h := (parse_block_inference ["OPTIONS:", "1) Yes", "2) No"] (by decide)).1
  rw [h]
  decide

/-- `setPane` never changes the key sequence. -/
theorem regKeys_setPane (reg : Registry) (pane_id : String) (p : PaneState) :
    regKeys (setPane reg pane_id p) = regKeys reg := by
  induction reg with
  | nil => rfl
  | cons a rest ih =>
    obtain ⟨k, v⟩ := a
    rw [setPane_cons]
    by_cases hc : k = pane_id
    · subst hc
      simp only [if_pos rfl, regKeys, List.map_cons]
      simpa [regKeys] using ih
    · simp only [if_neg hc, regKeys, List.map_cons]
      simpa [regKeys] using ih

/-- A key is present iff its lookup succeeds. -/
theorem lookupPane_isSome_iff {reg : Registry} {pane_id : String} :
    (lookupPane reg pane_id).isSome ↔ pane_id ∈ regKeys reg := by
  induction reg with
  | nil => simp [lookupPane, regKeys]
  | cons a rest ih =>
    obtain ⟨k, v⟩ := a
    by_cases hc : k = pane_id
    · subst hc
      simp [lookupPane, regKeys]
    · simp [lookupPane, regKeys, hc, ih, Ne.symm hc]

/-- Key membership after an upsert. -/
theorem mem_regKeys_update (reg : Registry) (pane_id : String)
    (state : PaneState) (x : String) :
    x ∈ regKeys (PaneRegistry.update reg pane_id state) ↔
      x ∈ regKeys reg ∨ x = pane_id := by
  unfold PaneRegistry.update
  by_cases hl : (lookupPane reg pane_id).isSome
  · rw [if_pos hl, regKeys_setPane]
    have hmem : pane_id ∈ regKeys reg := lookupPane_isSome_iff.1 hl
    constructor
    · exact Or.inl
    · rintro (hx | rfl)
      · exact hx
      · exact hmem
  · rw [if_neg hl]
    simp [regKeys]

/-- `update_output` never changes the key sequence. -/
theorem regKeys_update_output (reg : Registry) (pane_id : String)
    (lines : List String) (hsh : String) (now : Nat) :
    regKeys (PaneRegistry.update_output reg pane_id lines hsh now).2 = regKeys reg := by
  cases hl : lookupPane reg pane_id with
  | none => simp [PaneRegistry.update_output, hl]
  | some pane =>
    by_cases hh : pane.last_output_hash = hsh
    · simp [PaneRegistry.update_output, hl, hh]
    · simp [PaneRegistry.update_output, hl, hh, regKeys_setPane]

/-- Key membership after `_add_pane`. -/
theorem mem_regKeys_add_pane (cm : Bool) (capture : String → List String)
    (now : Nat) (reg : Registry) (tp : TmuxPane) (x : String) :
    x ∈ regKeys (add_pane cm capture now reg tp).1 ↔
      x ∈ regKeys reg ∨ x = tp.pane_id := by
  unfold add_pane
  cases cm with
  | false => simpa using mem_regKeys_update reg tp.pane_id _ x
  | true =>
    simp only [if_true]
    rw [regKeys_update_output]
    exact mem_regKeys_update reg tp.pane_id _ x

/-- Key membership after the addition loop: the original keys plus the
listed panes whose id was not among the pre-loop keys `K`. -/
theorem mem_regKeys_addLoop (cm : Bool) (capture : String → List String)
    (now : Nat) (K : List String) (ps : List TmuxPane) :
    ∀ (reg : Registry) (x : String),
      x ∈ regKeys (addLoop cm capture now K reg ps).1 ↔
        x ∈ regKeys reg ∨ (x ∉ K ∧ x ∈ ps.map (fun p => p.pane_id)) := by
  induction ps with
  | nil =>
    intro reg x
    simp [addLoop]
  | cons tp rest ih =>
    intro reg x
    by_cases hK : tp.pane_id ∈ K
    · rw [show addLoop cm capture now K reg (tp :: rest) =
          addLoop cm capture now K reg rest from by simp [addLoop, hK]]
      rw [ih reg x]
      simp only [List.map_cons, List.mem_cons]
      constructor
      · rintro (hx | ⟨hxK, hxr⟩)
        · exact Or.inl hx
        · exact Or.inr ⟨hxK, Or.inr hxr⟩
      · rintro (hx | ⟨hxK, rfl | hxr⟩)
        · exact Or.inl hx
        · exact absurd hK hxK
        · exact Or.inr ⟨hxK, hxr⟩
    · rw [show addLoop cm capture now K reg (tp :: rest) =
          ((addLoop cm capture now K (add_pane cm capture now reg tp).1 rest).1,
           (add_pane cm capture now reg tp).2 ++
             (addLoop cm capture now K (add_pane cm capture now reg tp).1 rest).2)
          from by simp [addLoop, hK]]
      rw [ih _ x, mem_regKeys_add_pane]
      simp only [List.map_cons, List.mem_cons]
      constructor
      · rintro ((hx | rfl) | ⟨hxK, hxr⟩)
        · exact Or.inl hx
        · exact Or.inr ⟨hK, Or.inl rfl⟩
        · exact Or.inr ⟨hxK, Or.inr hxr⟩
      · rintro (hx | ⟨hxK, rfl | hxr⟩)
        · exact Or.inl (Or.inl hx)
        · exact Or.inl (Or.inr rfl)
        · exact Or.inr ⟨hxK, hxr⟩

/-- Discovery events of the addition loop: one per listed pane whose id was
not among the pre-loop keys. -/
theorem countDisc_addLoop (cm : Bool) (capture : String → List String)
    (now : Nat) (K : List String) (ps : List TmuxPane) :
    ∀ (reg : Registry) (x : String),
      countDisc (addLoop cm capture now K reg ps).2 x =
        (ps.filter (fun p => decide (p.pane_id = x ∧ p.pane_id ∉ K))).length := by
  induction ps with
  | nil =>
    intro reg x
    simp [addLoop, countDisc]
  | cons tp rest ih =>
    intro reg x
    by_cases hK : tp.pane_id ∈ K
    · rw [show (addLoop cm capture now K reg (tp :: rest)).2 =
          (addLoop cm capture now K reg rest).2 from by simp [addLoop, hK]]
      rw [ih reg x]
      rw [List.filter_cons]
      simp [hK]
    · rw [show (addLoop cm capture now K reg (tp :: rest)).2 =
          (add_pane cm capture now reg tp).2 ++
            (addLoop cm capture now K (add_pane cm capture now reg tp).1 rest).2
          from by simp [addLoop, hK]]
      rw [show (add_pane cm capture now reg tp).2 =
          [ObsEvent.paneDiscovered
            { pane_id := tp.pane_id, session_name := tp.session_name
              window_name := tp.window_name, window_index := tp.window_index
              pane_index := tp.pane_index, title := tp.pane_title
              status := PaneStatus.running, last_activity := now }] from rfl]
      rw [List.filter_cons]
      unfold countDisc
      rw [List.filter_append, List.length_append]
      by_cases hx : tp.pane_id = x
      · have hxK : x ∉ K := hx ▸ hK
        simp only [hx, hK]
        simp only [List.filter_cons]
        simp [hx, hK, hxK, countDisc] at ih ⊢
        rw [ih]
        omega
      · simp only [List.filter_cons]
        simp [hx, countDisc] at ih ⊢
        rw [ih]

/-- No removal events come out of the addition loop. -/
theorem countRem_addLoop (cm : Bool) (capture : String → List String)
    (now : Nat) (K : List String) (ps : List TmuxPane) :
    ∀ (reg : Registry) (x : String),
      countRem (addLoop cm capture now K reg ps).2 x = 0 := by
  induction ps with
  | nil =>
    intro reg x
    simp [addLoop, countRem]
  | cons tp rest ih =>
    intro reg x
    by_cases hK : tp.pane_id ∈ K
    · rw [show (addLoop cm capture now K reg (tp :: rest)).2 =
          (addLoop cm capture now K reg rest).2 from by simp [addLoop, hK]]
      exact ih reg x
    · rw [show (addLoop cm capture now K reg (tp :: rest)).2 =
          (add_pane cm capture now reg tp).2 ++
            (addLoop cm capture now K (add_pane cm capture now reg tp).1 rest).2
          from by simp [addLoop, hK]]
      unfold countRem
      rw [List.filter_append, List.length_append]
      have h2 := ih (add_pane cm capture now reg tp).1 x
      unfold countRem at h2
      rw [h2]
      rfl

/-- Key membership after `remove`. -/
theorem mem_regKeys_remove (reg : Registry) (pane_id : String) (x : String) :
    x ∈ regKeys (PaneRegistry.remove reg pane_id).2 ↔
      x ∈ regKeys reg ∧ x ≠ pane_id := by
  by_cases hl : (lookupPane reg pane_id).isSome
  · simp only [PaneRegistry.remove, if_pos hl]
    simp only [regKeys, List.mem_map, List.mem_filter]
    constructor
    · rintro ⟨a, ⟨ha, hane⟩, rfl⟩
      refine ⟨⟨a, ha, rfl⟩, ?_⟩
      simpa using hane
    · rintro ⟨⟨a, ha, rfl⟩, hne⟩
      exact ⟨a, ⟨ha, by simpa using hne⟩, rfl⟩
  · simp only [PaneRegistry.remove, if_neg hl]
    have hid : pane_id ∉ regKeys reg := fun hmem => hl (lookupPane_isSome_iff.2 hmem)
    constructor
    · intro hx
      exact ⟨hx, fun hxe => hid (hxe ▸ hx)⟩
    · exact fun hx => hx.1

/-- Key membership after the removal loop. -/
theorem mem_regKeys_removeLoop (ids : List String) :
    ∀ (reg : Registry) (x : String),
      x ∈ regKeys (removeLoop reg ids).1 ↔ x ∈ regKeys reg ∧ x ∉ ids := by
  induction ids with
  | nil =>
    intro reg x
    simp [removeLoop]
  | cons pane_id rest ih =>
    intro reg x
    rw [show (removeLoop reg (pane_id :: rest)).1 =
        (removeLoop (PaneRegistry.remove reg pane_id).2 rest).1 from rfl]
    rw [ih _ x, mem_regKeys_remove]
    simp only [List.mem_cons]
    constructor
    · rintro ⟨⟨hx, hne⟩, hnr⟩
      exact ⟨hx, by rintro (rfl | hr) <;> [exact hne rfl; exact hnr hr]⟩
    · rintro ⟨hx, hni⟩
      exact ⟨⟨hx, fun hxe => hni (Or.inl hxe)⟩, fun hr => hni (Or.inr hr)⟩

/-- Removal events of the removal loop: one per listed id occurrence. -/
theorem countRem_removeLoop (ids : List String) :
    ∀ (reg : Registry) (x : String),
      countRem (removeLoop reg ids).2 x =
        (ids.filter (fun i => decide (i = x))).length := by
  induction ids with
  | nil =>
    intro reg x
    simp [removeLoop, countRem]
  | cons pane_id rest ih =>
    intro reg x
    rw [show (removeLoop reg (pane_id :: rest)).2 =
        ObsEvent.paneRemoved pane_id ::
          (removeLoop (PaneRegistry.remove reg pane_id).2 rest).2 from rfl]
    unfold countRem at ih ⊢
    rw [List.filter_cons, List.filter_cons]
    by_cases hx : pane_id = x
    · simp [hx, ih]
    · simp [hx, ih]

/-- No discovery events come out of the removal loop. -/
theorem countDisc_removeLoop (ids : List String) :
    ∀ (reg : Registry) (x : String),
      countDisc (removeLoop reg ids).2 x = 0 := by
  induction ids with
  | nil =>
    intro reg x
    simp [removeLoop, countDisc]
  | cons pane_id rest ih =>
    intro reg x
    rw [show (removeLoop reg (pane_id :: rest)).2 =
        ObsEvent.paneRemoved pane_id ::
          (removeLoop (PaneRegistry.remove reg pane_id).2 rest).2 from rfl]
    unfold countDisc at ih ⊢
    rw [List.filter_cons]
    simp [ih]

/-- Counting discovery events distributes over append. -/
theorem countDisc_append (a b : List ObsEvent) (x : String) :
    countDisc (a ++ b) x = countDisc a x + countDisc b x := by
  simp [countDisc, List.filter_append]

/-- Counting removal events distributes over append. -/
theorem countRem_append (a b : List ObsEvent) (x : String) :
    countRem (a ++ b) x = countRem a x + countRem b x := by
  simp [countRem, List.filter_append]

/-- A nodup list holds at most one element equal to `x`; filtering for
`x` satisfying a predicate keeps exactly one element iff `x` is present
and satisfies it. -/
theorem count_nodup (x : String) (P : String → Prop) [DecidablePred P] :
    ∀ l : List String, l.Nodup →
    (l.filter (fun i => decide (i = x ∧ P i))).length =
      (if x ∈ l ∧ P x then 1 else 0) := by
  intro l
  induction l with
  | nil =>
    intro _
    simp
  | cons k rest ih =>
    intro h
    have hn : k ∉ rest := (List.nodup_cons.1 h).1
    have ihr := ih (List.nodup_cons.1 h).2
    rw [List.filter_cons]
    by_cases hkx : k = x
    · subst hkx
      by_cases hP : P k
      · rw [if_pos (by simp [hP])]
        rw [List.length_cons, ihr]
        rw [if_neg (fun hc => hn hc.1)]
        rw [if_pos ⟨List.mem_cons_self _ _, hP⟩]
      · rw [if_neg (by simp [hP])]
        rw [ihr]
        rw [if_neg (fun hc => hP hc.2), if_neg (fun hc => hP hc.2)]
    · rw [if_neg (by simp [hkx])]
      rw [ihr]
      have hiff : (x ∈ k :: rest ∧ P x) ↔ (x ∈ rest ∧ P x) := by
        constructor
        · rintro ⟨hm, hp⟩
          rcases List.mem_cons.1 hm with rfl | hm2
          · exact absurd rfl hkx
          · exact ⟨hm2, hp⟩
        · rintro ⟨hm, hp⟩
          exact ⟨List.mem_cons_of_mem _ hm, hp⟩
      rw [if_congr hiff rfl rfl]

/-- The add-loop pane filter counts the same as the id-level filter. -/
theorem filter_paneId_to_ids (x : String) (K : List String) :
    ∀ ps : List TmuxPane,
    (ps.filter (fun p => decide (p.pane_id = x ∧ p.pane_id ∉ K))).length =
      ((ps.map (fun p => p.pane_id)).filter (fun i => decide (i = x ∧ i ∉ K))).length := by
  intro ps
  induction ps with
  | nil => rfl
  | cons tp rest ih =>
    simp only [List.map_cons, List.filter_cons]
    by_cases hc : tp.pane_id = x ∧ tp.pane_id ∉ K
    · rw [if_pos (by simpa using hc), if_pos (by simpa using hc)]
      simp only [List.length_cons, ih]
    · rw [if_neg (by simpa using hc), if_neg (by simpa using hc)]
      exact ih

/-- Double filtering of the removed ids collapses into one conjunction. -/
theorem filter_removed_collapse (D : List String) (x : String) :
    ∀ K : List String,
    ((K.filter (fun i => decide (i ∉ D))).filter (fun i => decide (i = x))).length =
      (K.filter (fun i => decide (i = x ∧ i ∉ D))).length := by
  intro K
  induction K with
  | nil => rfl
  | cons k rest ih =>
    simp only [List.filter_cons]
    by_cases h1 : k ∉ D
    · rw [if_pos (by simpa using h1)]
      rw [List.filter_cons]
      by_cases h2 : k = x
      · rw [if_pos (by simpa using h2),
            if_pos (by simp only [decide_eq_true_eq]; exact ⟨h2, h1⟩)]
        simp only [List.length_cons, ih]
      · rw [if_neg (by simpa using h2), if_neg (by simp [h2])]
        exact ih
    · rw [if_neg (by simpa using h1)]
      rw [if_neg (by simp only [decide_eq_true_eq]; exact fun hc => h1 hc.2)]
      exact ih

/-- Claim C8: for a discovery run over registry keys `K` and discovered id
set `D` (distinct ids on both sides), the resulting key set is
`(K ∪ (D \ K)) \ (K \ D)`, exactly one `pane_discovered` event is emitted
per id in `D \ K`, exactly one `pane_removed` event per id in `K \ D`,
and no id outside those sets gets any event. -/
theorem discover_panes_diff (cm : Bool) (capture : String → List String)
    (now : Nat) (reg : Registry) (panes : List TmuxPane)
    (hK : (regKeys reg).Nodup)
    (hD : (panes.map (fun p => p.pane_id)).Nodup) :
    (∀ x, x ∈ regKeys (discover_panes cm capture now reg panes).1 ↔
       ((x ∈ regKeys reg ∨
          (x ∈ panes.map (fun p => p.pane_id) ∧ x ∉ regKeys reg)) ∧
        ¬(x ∈ regKeys reg ∧ x ∉ panes.map (fun p => p.pane_id)))) ∧
    (∀ x, countDisc (discover_panes cm capture now reg panes).2 x =
       (if x ∈ panes.map (fun p => p.pane_id) ∧ x ∉ regKeys reg then 1 else 0)) ∧
    (∀ x, countRem (discover_panes cm capture now reg panes).2 x =
       (if x ∈ regKeys reg ∧ x ∉ panes.map (fun p => p.pane_id) then 1 else 0)) := by
  refine ⟨?_, ?_, ?_⟩
  · intro x
    rw [show (discover_panes cm capture now reg panes).1 =
        (removeLoop (addLoop cm capture now (regKeys reg) reg panes).1
          ((regKeys reg).filter
            (fun i => decide (i ∉ panes.map (fun p => p.pane_id))))).1 from rfl]
    rw [mem_regKeys_removeLoop, mem_regKeys_addLoop]
    simp only [List.mem_filter, decide_eq_true_eq]
    tauto
  · intro x
    rw [show (discover_panes cm capture now reg panes).2 =
        (addLoop cm capture now (regKeys reg) reg panes).2 ++
          (removeLoop (addLoop cm capture now (regKeys reg) reg panes).1
            ((regKeys reg).filter
              (fun i => decide (i ∉ panes.map (fun p => p.pane_id))))).2 from rfl]
    rw [countDisc_append, countDisc_addLoop, countDisc_removeLoop]
    rw [filter_paneId_to_ids]
    rw [count_nodup x (fun i => i ∉ regKeys reg) _ hD]
    simp
  · intro x
    rw [show (discover_panes cm capture now reg panes).2 =
        (addLoop cm capture now (regKeys reg) reg panes).2 ++
          (removeLoop (addLoop cm capture now (regKeys reg) reg panes).1
            ((regKeys reg).filter
              (fun i => decide (i ∉ panes.map (fun p => p.pane_id))))).2 from rfl]
    rw [countRem_append, countRem_addLoop, countRem_removeLoop]
    rw [filter_removed_collapse]
    rw [count_nodup x (fun i => i ∉ panes.map (fun p => p.pane_id)) _ hK]
    simp

/-- Claim C8 witness: the discovery diff theorem at a concrete registry
(holding `%0`) and a concrete discovery listing only `%2`. -/
theorem discover_panes_diff_witness :
    countDisc (discover_panes false (fun _ => []) 3 [("%0", basePane)]
        [tmuxPane2]).2 "%2" =
      (if "%2" ∈ [tmuxPane2].map (fun p => p.pane_id) ∧
          "%2" ∉ regKeys [("%0", basePane)] then 1 else 0) :=
  (discover_panes_diff false (fun _ => []) 3 [("%0", basePane)] [tmuxPane2]
    (by decide) (by decide)).2.1 "%2"
